import Mathlib

/-!
# Verification of the WoP2025 digital-twin mechanics pipeline

Shallow embedding of the PK engine (`src/mechanics/models/pk_model.py`),
the PD engine (`src/mechanics/models/pd_model.py`), the effect-propagation
step (`src/mechanics/models/ode_model.py`) and the LSTM feature extractor
(`src/mechanics/models/orchestrator.py`), together with theorems settling
the specification claims about them.

Machine floats are modelled by real numbers; numpy arrays by lists of
reals; Python exceptions by `Except`/`Option` results.
-/

open Real

namespace WoP

noncomputable section

/-! ## PK model (`pk_model.py`) -/

/-- Python's `str.lower()`: lowercase the string characterwise. -/
def strLower (s : String) : String := String.mk (s.data.map Char.toLower)

/-- Per-drug PK parameters, one row of `PKModel.DRUG_PARAMS`. -/
structure DrugParams where
  ka : ℝ
  ke : ℝ
  Vd : ℝ      -- L/kg
  F  : ℝ

/-- The `PKModel.DRUG_PARAMS` registry: exactly metoprolol and atenolol. -/
def DRUG_PARAMS (name : String) : Option DrugParams :=
  if name = "metoprolol" then some ⟨1.5, 0.20, 5.5, 0.50⟩
  else if name = "atenolol" then some ⟨1.0, 0.12, 1.2, 0.60⟩
  else none

/-- The state built by `PKModel.__init__` after the registry check. -/
structure PKModel where
  drug_name : String
  dose : ℝ
  weight : ℝ
  tau : ℝ
  n_days : ℕ
  ka : ℝ
  ke : ℝ
  Vd : ℝ      -- L, already scaled by patient weight
  F : ℝ

/-- `PKModel.__init__`: lowercases the drug name, rejects names outside
`DRUG_PARAMS` with a `ValueError` before loading any parameter, otherwise
loads `ka`, `ke`, `Vd * patient_weight` and `F` from the registry row. -/
def mkPKModel (drug_name : String) (dose_mg patient_weight : ℝ)
    (tau_hours : ℝ := 12) (n_days : ℕ := 7) : Except String PKModel :=
  let lname := strLower drug_name
  match DRUG_PARAMS lname with
  | none => .error ("Unknown drug: " ++ drug_name)
  | some p =>
      .ok { drug_name := lname, dose := dose_mg, weight := patient_weight,
            tau := tau_hours, n_days := n_days,
            ka := p.ka, ke := p.ke, Vd := p.Vd * patient_weight, F := p.F }

/-- `PKModel.C_single`: single-dose Bateman curve, zero for negative time,
in ng/mL. -/
def C_single (pk : PKModel) (t : ℝ) : ℝ :=
  if t < 0 then 0
  else (pk.F * pk.dose * pk.ka) / (pk.Vd * (pk.ka - pk.ke)) *
        (Real.exp (-pk.ke * t) - Real.exp (-pk.ka * t)) * 1000

/-- `PKModel.C_multiple`: loop over dose indices `i in range(n_doses)`,
adding `C_single(t - i*tau)` whenever `t >= i*tau`. -/
def C_multiple (pk : PKModel) (t : ℝ) (n_doses : ℕ) : ℝ :=
  (List.range n_doses).foldl
    (fun total i =>
      if (i : ℝ) * pk.tau ≤ t then total + C_single pk (t - i * pk.tau)
      else total) 0

/-! ### Steady-state block of `PKModel.simulate` (lines 114-133) -/

/-- `np.max` over a non-empty array (the `[]` case is unreachable where
this is used). -/
def listMax : List ℝ → ℝ
  | [] => 0
  | x :: xs => xs.foldl max x

/-- The closed-form steady-state Bateman profile within one dosing
interval, the loop body filling `C_ss_interval`. -/
def C_ss (pk : PKModel) (tt : ℝ) : ℝ :=
  (pk.F * pk.dose * pk.ka * 1000) / (pk.Vd * (pk.ka - pk.ke)) *
    (Real.exp (-pk.ke * tt) / (1 - Real.exp (-pk.ke * pk.tau)) -
      Real.exp (-pk.ka * tt) / (1 - Real.exp (-pk.ka * pk.tau)))

/-- `np.linspace(0, tau, 500)`: the `i`-th sample time `i·τ/499`. -/
def t_interval (pk : PKModel) (i : ℕ) : ℝ := (i : ℝ) * pk.tau / 499

/-- The sampled one-interval steady-state profile `C_ss_interval`. -/
def C_ss_samples (pk : PKModel) : List ℝ :=
  (List.range 500).map (fun i => C_ss pk (t_interval pk i))

/-- `Cmax_ss = np.max(C_ss_interval)`. -/
def Cmax_ss (pk : PKModel) : ℝ := listMax (C_ss_samples pk)

/-- `Cmin_ss = C_ss_interval[-1]` (the last sample). -/
def Cmin_ss (pk : PKModel) : ℝ := (C_ss_samples pk).getLastD 0

/-- `AUC_ss = trapezoid(C_ss_interval, t_interval)`: the trapezoidal
integral over the sampled profile. -/
def AUC_ss (pk : PKModel) : ℝ :=
  ∑ i in Finset.range 499,
    (C_ss pk (t_interval pk i) + C_ss pk (t_interval pk (i + 1))) / 2 *
      (t_interval pk (i + 1) - t_interval pk i)

/-- `Cavg_ss = AUC_ss / tau`. -/
def Cavg_ss (pk : PKModel) : ℝ := AUC_ss pk / pk.tau

/-- `R = 1 / (1 - np.exp(-ke * tau))`. -/
def accumulation_factor (pk : PKModel) : ℝ :=
  1 / (1 - Real.exp (-pk.ke * pk.tau))

/-- `fluctuation = (Cmax_ss - Cmin_ss) / Cavg_ss * 100`. -/
def fluctuation_percent (pk : PKModel) : ℝ :=
  (Cmax_ss pk - Cmin_ss pk) / Cavg_ss pk * 100

/-- The engine state for metoprolol 100 mg in an 82 kg patient, BID
dosing (the module's example regimen). -/
def pkMetoprolol : PKModel :=
  { drug_name := "metoprolol", dose := 100, weight := 82, tau := 12,
    n_days := 7, ka := 1.5, ke := 0.20, Vd := 5.5 * 82, F := 0.50 }

/-! ## Schemas (`schemas.py`) -/

/-- `schemas.PatientBaseline` (numeric/physiological fields). -/
structure PatientBaseline where
  patient_id : String
  age : ℤ
  sex : String
  weight : ℝ
  height : ℝ
  hr_baseline : ℝ
  sbp_baseline : ℝ
  dbp_baseline : ℝ
  lv_volume : ℝ
  aortic_pressure : ℝ
  contractility : ℝ
  vascular_resistance : ℝ
  ejection_fraction : ℝ
  cardiac_output : ℝ
  arrhythmia_risk : ℝ

/-- `schemas.PhysiologicalEffects`: PD output record. -/
structure PhysiologicalEffects where
  drug_name : String
  time_hours : List ℝ
  delta_hr : List ℝ
  delta_sbp : List ℝ
  delta_dbp : List ℝ
  delta_contractility : List ℝ
  delta_vascular_resistance : List ℝ
  bradycardia_risk : Bool
  hypotension_risk : Bool

/-- `schemas.SimulationTrajectory`: effect-propagation output record. -/
structure SimulationTrajectory where
  patient_id : String
  drug_applied : String
  time_hours : List ℝ
  heart_rate : List ℝ
  systolic_bp : List ℝ
  diastolic_bp : List ℝ
  cardiac_output : List ℝ
  ejection_fraction : List ℝ
  mean_arterial_pressure : List ℝ
  stroke_volume : List ℝ
  hr_percent_change : ℝ
  bp_percent_change : ℝ
  adverse_events : List String

/-! ## PD model (`pd_model.py`) -/

/-- One endpoint's Hill parameters. -/
structure HillParams where
  Emax : ℝ
  EC50 : ℝ
  gamma : ℝ

/-- The five per-endpoint parameter sets used by the PD engine. -/
structure PDParams where
  HR : HillParams
  SBP : HillParams
  DBP : HillParams
  contractility : HillParams
  vascular_resistance : HillParams

/-- `PDModel.default_params['metoprolol']` (Hill parameters only; the
`baseline` entries of the Python dict are unused by `compute_effects`). -/
def metoprololDefaults : PDParams :=
  { HR := ⟨25.0, 50.0, 1.5⟩
    SBP := ⟨15.0, 80.0, 1.5⟩
    DBP := ⟨10.0, 80.0, 1.5⟩
    contractility := ⟨0.2, 50.0, 1.5⟩
    vascular_resistance := ⟨0.15, 80.0, 1.5⟩ }

/-- `PDModel.default_params['atenolol']`. -/
def atenololDefaults : PDParams :=
  { HR := ⟨20.0, 100.0, 1.5⟩
    SBP := ⟨12.0, 150.0, 1.5⟩
    DBP := ⟨8.0, 150.0, 1.5⟩
    contractility := ⟨0.15, 100.0, 1.5⟩
    vascular_resistance := ⟨0.12, 150.0, 1.5⟩ }

/-- The `PDModel.default_params` table as a lookup. -/
def PD_default_params (name : String) : Option PDParams :=
  if name = "metoprolol" then some metoprololDefaults
  else if name = "atenolol" then some atenololDefaults
  else none

/-- The state built by `PDModel.__init__`. -/
structure PDModel where
  drug_name : String
  params : PDParams

/-- `PDModel.__init__` with `csv_path=None` (no calibration dataset): the
CSV branch is not taken and
`self.params = self.default_params.get(self.drug_name, self.default_params['metoprolol'])`
— a total dictionary lookup whose miss case yields the metoprolol row,
never an error. -/
def mkPDModel (drug_name : String) : PDModel :=
  let lname := strLower drug_name
  { drug_name := lname
    params := (PD_default_params lname).getD metoprololDefaults }

/-- `PDModel.hill_equation`: Hill (sigmoid Emax) response, then
`np.clip(effect, 0, Emax * 1.1)` (i.e. `min (max effect 0) (Emax * 1.1)`). -/
def hill_equation (C Emax EC50 gamma : ℝ) : ℝ :=
  let effect := (Emax * C ^ gamma) / (EC50 ^ gamma + C ^ gamma)
  min (max effect 0) (Emax * 1.1)

/-- `PDModel.compute_effects`: convert the concentration series to ng/mL,
evaluate the Hill equation for the five endpoints, negate the reductions
into deltas, and set the two safety flags from the final-timestep deltas
(`delta[-1]`, an `IndexError` — modelled as `none` — on an empty series). -/
def compute_effects (pd : PDModel) (baseline : PatientBaseline)
    (time_hours concentration_mg_L : List ℝ) : Option PhysiologicalEffects :=
  let C_ng_mL := concentration_mg_L.map (fun c => c * 1000.0)
  let hr_reduction := C_ng_mL.map
    (fun c => hill_equation c pd.params.HR.Emax pd.params.HR.EC50 pd.params.HR.gamma)
  let sbp_reduction := C_ng_mL.map
    (fun c => hill_equation c pd.params.SBP.Emax pd.params.SBP.EC50 pd.params.SBP.gamma)
  let dbp_reduction := C_ng_mL.map
    (fun c => hill_equation c pd.params.DBP.Emax pd.params.DBP.EC50 pd.params.DBP.gamma)
  let contractility_reduction := C_ng_mL.map
    (fun c => hill_equation c pd.params.contractility.Emax
      pd.params.contractility.EC50 pd.params.contractility.gamma)
  let vascular_resistance_reduction := C_ng_mL.map
    (fun c => hill_equation c pd.params.vascular_resistance.Emax
      pd.params.vascular_resistance.EC50 pd.params.vascular_resistance.gamma)
  let delta_hr := hr_reduction.map (fun x => -x)
  let delta_sbp := sbp_reduction.map (fun x => -x)
  let delta_dbp := dbp_reduction.map (fun x => -x)
  let delta_contractility := contractility_reduction.map (fun x => -x)
  let delta_vascular_resistance := vascular_resistance_reduction.map (fun x => -x)
  match delta_hr.getLast?, delta_sbp.getLast? with
  | some dh, some ds =>
      let final_hr := baseline.hr_baseline + dh
      let final_sbp := baseline.sbp_baseline + ds
      some { drug_name := pd.drug_name
             time_hours := time_hours
             delta_hr := delta_hr
             delta_sbp := delta_sbp
             delta_dbp := delta_dbp
             delta_contractility := delta_contractility
             delta_vascular_resistance := delta_vascular_resistance
             bradycardia_risk := decide (final_hr < 60)
             hypotension_risk := decide (final_sbp < 90) }
  | _, _ => none

/-- An inert `PhysiologicalEffects` record, used only as an `Option.getD`
default in theorem statements. -/
def emptyEffects : PhysiologicalEffects :=
  { drug_name := "", time_hours := [], delta_hr := [], delta_sbp := [],
    delta_dbp := [], delta_contractility := [], delta_vascular_resistance := [],
    bradycardia_risk := false, hypotension_risk := false }

/-! ## ODE model (`ode_model.py`) -/

/-- A value in the input patient-parameter dict: either a number, or a
value that Python's `float()`/`int()` cannot convert (e.g. the string
"abc"). -/
inductive PyVal where
  | num (x : ℝ)
  | str (s : String)

/-- Python's `float(v)`: succeeds on numbers, raises `ValueError` on a
non-convertible value. -/
def pyFloat : PyVal → Except String ℝ
  | .num x => .ok x
  | .str s => .error ("could not convert string to float: " ++ s)

/-- Truncation toward zero, Python's `int()` on a number. -/
def pyTrunc (x : ℝ) : ℤ := if x < 0 then ⌈x⌉ else ⌊x⌋

/-- Python's `int(v)`: truncates numbers, raises `ValueError` on a
non-convertible value. -/
def pyInt : PyVal → Except String ℤ
  | .num x => .ok (pyTrunc x)
  | .str s => .error ("invalid literal for int: " ++ s)

/-- Python's `str(v)` (never fails). -/
def pyStr : PyVal → String
  | .num _ => "num"
  | .str s => s

/-- `self.patient.get(key, default)` followed by `float(...)`. -/
def getFloatField (patient : String → Option PyVal) (key : String) (d : ℝ) :
    Except String ℝ :=
  match patient key with
  | none => .ok d
  | some v => pyFloat v

/-- `self.patient.get(key, default)` followed by `int(...)`. -/
def getIntField (patient : String → Option PyVal) (key : String) (d : ℤ) :
    Except String ℤ :=
  match patient key with
  | none => .ok d
  | some v => pyInt v

/-- The value `self.patient.get(key, d)` takes when the lookup hits a
number or misses (the only cases in which `float()` does not raise). -/
def numGetD (patient : String → Option PyVal) (key : String) (d : ℝ) : ℝ :=
  match patient key with
  | some (.num x) => x
  | _ => d

/-- Like `numGetD` for the integer field `age`. -/
def intGetD (patient : String → Option PyVal) (key : String) (d : ℤ) : ℤ :=
  match patient key with
  | some (.num x) => pyTrunc x
  | _ => d

/-- The attribute state set by `CardiovascularODE._set_physiological_parameters`. -/
structure PhysioParams where
  patient_id : String
  age : ℤ
  sex : String
  weight : ℝ
  height : ℝ
  hr : ℝ
  sbp : ℝ
  dbp : ℝ
  sv : ℝ
  co : ℝ
  svr : ℝ
  arrhythmia_risk : ℝ

/-- `CardiovascularODE._set_physiological_parameters`: each field is read
with `dict.get(key, default)` and converted with `float`/`int`; a missing
key silently takes the default, while a present non-convertible value
raises `ValueError` (an `error` result). -/
def set_physiological_parameters (patient : String → Option PyVal) :
    Except String PhysioParams :=
  (getIntField patient "age" 50).bind fun age =>
  (getFloatField patient "weight" 70.0).bind fun weight =>
  (getFloatField patient "height" 170.0).bind fun height =>
  (getFloatField patient "hr" 75.0).bind fun hr =>
  (getFloatField patient "sbp" 120.0).bind fun sbp =>
  (getFloatField patient "dbp" 80.0).bind fun dbp =>
  (getFloatField patient "sv" 70.0).bind fun sv =>
  (getFloatField patient "co" 5.0).bind fun co =>
  (getFloatField patient "svr" 18.0).bind fun svr =>
  (getFloatField patient "ecg_risk" 0.1).bind fun risk =>
  .ok { patient_id := ((patient "patient_id").map pyStr).getD "unknown"
        age := age
        sex := ((patient "sex").map pyStr).getD "M"
        weight := weight, height := height, hr := hr, sbp := sbp, dbp := dbp
        sv := sv, co := co, svr := svr, arrhythmia_risk := risk }

/-- `CardiovascularODE.initialize`: build the `PatientBaseline` record
from the parameter state (`lv_volume=120`, `aortic_pressure=sbp`,
`contractility=1.0`, `ejection_fraction=0.60`, `cardiac_output` falling
back to `hr·sv/1000` when `co ≤ 0`). -/
def initBaseline (patient : String → Option PyVal) : Except String PatientBaseline :=
  (set_physiological_parameters patient).map fun p =>
    { patient_id := p.patient_id
      age := p.age
      sex := p.sex
      weight := p.weight
      height := p.height
      hr_baseline := p.hr
      sbp_baseline := p.sbp
      dbp_baseline := p.dbp
      lv_volume := 120.0
      aortic_pressure := p.sbp
      contractility := 1.0
      vascular_resistance := p.svr
      ejection_fraction := 0.60
      cardiac_output := if p.co > (0 : ℝ) then p.co else p.hr * p.sv / 1000.0
      arrhythmia_risk := p.arrhythmia_risk }

/-- Junk `PhysioParams`, used only as a default in theorem statements. -/
def junkPhysio : PhysioParams :=
  { patient_id := "", age := 0, sex := "", weight := 0, height := 0, hr := 0,
    sbp := 0, dbp := 0, sv := 0, co := 0, svr := 0, arrhythmia_risk := 0 }

/-- Extract the `ok` payload of an `Except`, with a default. -/
def exceptGetD {ε α : Type} (e : Except ε α) (d : α) : α :=
  match e with
  | .ok a => a
  | .error _ => d

/-- `np.min` over a non-empty array (the `[]` case is unreachable where
this is used). -/
def listMin : List ℝ → ℝ
  | [] => 0
  | x :: xs => xs.foldl min x

/-- `hr_series = baseline.hr_baseline + effects.delta_hr` (elementwise). -/
def hr_series (b : PatientBaseline) (e : PhysiologicalEffects) : List ℝ :=
  e.delta_hr.map (fun d => b.hr_baseline + d)

/-- `sbp_series = baseline.sbp_baseline + effects.delta_sbp`. -/
def sbp_series (b : PatientBaseline) (e : PhysiologicalEffects) : List ℝ :=
  e.delta_sbp.map (fun d => b.sbp_baseline + d)

/-- `dbp_series = baseline.dbp_baseline + effects.delta_dbp`. -/
def dbp_series (b : PatientBaseline) (e : PhysiologicalEffects) : List ℝ :=
  e.delta_dbp.map (fun d => b.dbp_baseline + d)

/-- `contractility_series = baseline.contractility * (1 + delta_contractility)`. -/
def contractility_series (b : PatientBaseline) (e : PhysiologicalEffects) : List ℝ :=
  e.delta_contractility.map (fun d => b.contractility * (1.0 + d))

/-- `vr_series = baseline.vascular_resistance * (1 + delta_vascular_resistance)`. -/
def vr_series (b : PatientBaseline) (e : PhysiologicalEffects) : List ℝ :=
  e.delta_vascular_resistance.map (fun d => b.vascular_resistance * (1.0 + d))

/-- `co_series = baseline.cardiac_output * (contractility_series / baseline.contractility)`. -/
def co_series (b : PatientBaseline) (e : PhysiologicalEffects) : List ℝ :=
  (contractility_series b e).map
    (fun c => b.cardiac_output * (c / b.contractility))

/-- `ef_series = baseline.ejection_fraction * (contractility_series / baseline.contractility)`. -/
def ef_series (b : PatientBaseline) (e : PhysiologicalEffects) : List ℝ :=
  (contractility_series b e).map
    (fun c => b.ejection_fraction * (c / b.contractility))

/-- `hr_safe = np.where(hr_series <= 0, 1.0, hr_series)` and
`stroke_volume_series = co_series * 1000.0 / hr_safe` (elementwise). -/
def stroke_volume_series (b : PatientBaseline) (e : PhysiologicalEffects) : List ℝ :=
  ((co_series b e).zip (hr_series b e)).map
    (fun p => p.1 * 1000.0 / (if p.2 ≤ 0 then 1.0 else p.2))

/-- `mean_arterial_pressure = dbp_series + (sbp_series - dbp_series)/3`. -/
def map_series (b : PatientBaseline) (e : PhysiologicalEffects) : List ℝ :=
  ((sbp_series b e).zip (dbp_series b e)).map
    (fun p => p.2 + (p.1 - p.2) / 3.0)

/-- `CardiovascularODE.simulate_with_effects`: apply the PD deltas on top
of the baseline, derive CO/EF/SV/MAP series, percent changes at the final
timestep and adverse-event messages.  Mismatched or empty delta series
make the numpy element-wise arithmetic or the `[-1]` indexing raise — the
`none` result. -/
def simulate_with_effects (baseline : PatientBaseline)
    (effects : PhysiologicalEffects) : Option SimulationTrajectory :=
  if _h : effects.delta_hr.length = effects.delta_sbp.length ∧
      effects.delta_hr.length = effects.delta_dbp.length ∧
      effects.delta_hr.length = effects.delta_contractility.length ∧
      effects.delta_hr.length = effects.delta_vascular_resistance.length ∧
      effects.delta_hr.length ≠ 0 then
    let hr_percent_change :=
      ((hr_series baseline effects).getLastD 0 - baseline.hr_baseline) /
        baseline.hr_baseline * 100.0
    let bp_percent_change :=
      ((sbp_series baseline effects).getLastD 0 - baseline.sbp_baseline) /
        baseline.sbp_baseline * 100.0
    let adverse_events :=
      (if effects.bradycardia_risk = true ∨
          listMin (hr_series baseline effects) < 60 then
        ["Bradycardia risk"] else []) ++
      (if effects.hypotension_risk = true ∨
          listMin (sbp_series baseline effects) < 90 then
        ["Hypotension risk"] else [])
    some { patient_id := baseline.patient_id
           drug_applied := effects.drug_name
           time_hours := effects.time_hours
           heart_rate := hr_series baseline effects
           systolic_bp := sbp_series baseline effects
           diastolic_bp := dbp_series baseline effects
           cardiac_output := co_series baseline effects
           ejection_fraction := ef_series baseline effects
           mean_arterial_pressure := map_series baseline effects
           stroke_volume := stroke_volume_series baseline effects
           hr_percent_change := hr_percent_change
           bp_percent_change := bp_percent_change
           adverse_events := adverse_events }
  else none

/-- An inert `SimulationTrajectory`, used only as an `Option.getD` default
in theorem statements. -/
def emptyTrajectory : SimulationTrajectory :=
  { patient_id := "", drug_applied := "", time_hours := [], heart_rate := [],
    systolic_bp := [], diastolic_bp := [], cardiac_output := [],
    ejection_fraction := [], mean_arterial_pressure := [], stroke_volume := [],
    hr_percent_change := 0, bp_percent_change := 0, adverse_events := [] }

/-! ### Concrete inputs used by witnesses and counterexamples -/

/-- Patient-parameter mapping whose `weight` entry is a value `float()`
cannot convert. -/
def badPatient : String → Option PyVal :=
  fun k => if k = "weight" then some (.str "abc") else none

/-- The empty patient-parameter mapping: every field is absent. -/
def noParams : String → Option PyVal := fun _ => none

/-- The all-defaults baseline the initializer produces from an empty
mapping. -/
def baselineDefault : PatientBaseline :=
  { patient_id := "unknown", age := 50, sex := "M", weight := 70, height := 170,
    hr_baseline := 75, sbp_baseline := 120, dbp_baseline := 80,
    lv_volume := 120, aortic_pressure := 120, contractility := 1,
    vascular_resistance := 18, ejection_fraction := 0.60,
    cardiac_output := 5, arrhythmia_risk := 0.1 }

/-- A baseline record whose `contractility` field is zero. -/
def contractilityZeroBaseline : PatientBaseline :=
  { patient_id := "p0", age := 50, sex := "M", weight := 70, height := 170,
    hr_baseline := 75, sbp_baseline := 120, dbp_baseline := 80,
    lv_volume := 120, aortic_pressure := 120, contractility := 0,
    vascular_resistance := 18, ejection_fraction := 0.60,
    cardiac_output := 5, arrhythmia_risk := 0.1 }

/-- One-timestep effects record with all five PD delta series zero. -/
def zeroEffects1 : PhysiologicalEffects :=
  { drug_name := "metoprolol", time_hours := [0], delta_hr := [0],
    delta_sbp := [0], delta_dbp := [0], delta_contractility := [0],
    delta_vascular_resistance := [0],
    bradycardia_risk := false, hypotension_risk := false }

/-! ## LSTM feature extractor (`orchestrator.py`) -/

/-- `np.argmin`: index of the *first* occurrence of the minimum (the `[]`
case is unreachable where this is used). -/
def argminIdx : List ℝ → ℕ
  | [] => 0
  | [_] => 0
  | x :: y :: ys => if x ≤ listMin (y :: ys) then 0 else argminIdx (y :: ys) + 1

/-- `DigitalTwinOrchestrator.prepare_lstm_features`, 24-hour-ahead target:
for each timestep `tᵢ` the heart-rate sample at index
`(np.abs(t - (tᵢ + 24))).argmin()`. -/
def target_hr_next_24h (t hr : List ℝ) : List ℝ :=
  t.map (fun ti => hr.getD (argminIdx (t.map (fun tj => |tj - (ti + 24)|))) 0)

end

/-! ## Claim C1: multi-dose superposition -/

/-- C1: for every time `t` and dose count `n_doses`, `C_multiple t n_doses`
equals the sum over dose indices `i < n_doses` with `i·τ ≤ t` of the
single-dose Bateman curve at `t − i·τ`; doses with `i·τ > t` contribute
nothing (the `else 0` branch). -/
theorem C1_multiple_dose_superposition (pk : PKModel) (t : ℝ) (n_doses : ℕ) :
    C_multiple pk t n_doses =
      ∑ i in Finset.range n_doses,
        if (i : ℝ) * pk.tau ≤ t then C_single pk (t - i * pk.tau) else 0 := by
  induction n_doses with
  | zero => rfl
  | succ n ih =>
      rw [Finset.sum_range_succ, ← ih]
      simp only [C_multiple, List.range_succ, List.foldl_append, List.foldl_cons,
        List.foldl_nil]
      by_cases h : (n : ℝ) * pk.tau ≤ t <;> simp [h]

/-! ## Claim C2: unknown drugs are rejected at construction -/

/-- C2: constructing the PK engine for a drug name whose lowercase form is
not in the registry yields an error (no `PKModel` state — hence no later
computation — is ever produced); in particular "fakedrug" is rejected,
while the registry drugs "metoprolol" and "atenolol" are accepted. -/
theorem C2_unknown_drug_rejected (name : String) (dose w tau : ℝ) (nd : ℕ)
    (h : DRUG_PARAMS (strLower name) = none) :
    (mkPKModel name dose w tau nd).isOk = false ∧
    (mkPKModel "fakedrug" dose w tau nd).isOk = false ∧
    (mkPKModel "metoprolol" dose w tau nd).isOk = true ∧
    (mkPKModel "atenolol" dose w tau nd).isOk = true := by
  refine ⟨?_, ?_, ?_, ?_⟩
  · simp [mkPKModel, h, Except.isOk, Except.toBool]
  · have hf : DRUG_PARAMS (strLower "fakedrug") = none := by
      simp [DRUG_PARAMS, show strLower "fakedrug" = "fakedrug" from by decide]
    simp [mkPKModel, hf, Except.isOk, Except.toBool]
  · have hm : DRUG_PARAMS (strLower "metoprolol") =
        some ⟨1.5, 0.20, 5.5, 0.50⟩ := by
      simp [DRUG_PARAMS, show strLower "metoprolol" = "metoprolol" from by decide]
    simp [mkPKModel, hm, Except.isOk, Except.toBool]
  · have ha : DRUG_PARAMS (strLower "atenolol") =
        some ⟨1.0, 0.12, 1.2, 0.60⟩ := by
      have : strLower "atenolol" = "atenolol" := by decide
      simp [DRUG_PARAMS, this]
    simp [mkPKModel, ha, Except.isOk, Except.toBool]

/-- C2 witness at concrete inputs. -/
theorem C2_witness :
    (mkPKModel "FakeDrug" 100 82 12 7).isOk = false ∧
    (mkPKModel "fakedrug" 100 82 12 7).isOk = false ∧
    (mkPKModel "metoprolol" 100 82 12 7).isOk = true ∧
    (mkPKModel "atenolol" 100 82 12 7).isOk = true :=
  C2_unknown_drug_rejected "FakeDrug" 100 82 12 7
    (by simp [DRUG_PARAMS, show strLower "FakeDrug" = "fakedrug" from by decide])

/-! ## Claim C3: Hill equation monotone and bounded -/

/-- C3: with `Emax ≥ 0`, `EC50 > 0`, `γ > 0`, the PD engine's clipped Hill
response is monotonically non-decreasing on non-negative concentrations and
its value lies in `[0, 1.1·Emax]`. -/
theorem C3_hill_monotone_bounded (Emax EC50 gamma c₁ c₂ : ℝ)
    (hE : 0 ≤ Emax) (hEC : 0 < EC50) (hg : 0 < gamma)
    (hc : 0 ≤ c₁) (hcc : c₁ ≤ c₂) :
    hill_equation c₁ Emax EC50 gamma ≤ hill_equation c₂ Emax EC50 gamma ∧
    0 ≤ hill_equation c₁ Emax EC50 gamma ∧
    hill_equation c₁ Emax EC50 gamma ≤ 1.1 * Emax := by
  have hd : 0 < EC50 ^ gamma := Real.rpow_pos_of_pos hEC gamma
  have ha : 0 ≤ c₁ ^ gamma := Real.rpow_nonneg hc gamma
  have hab : c₁ ^ gamma ≤ c₂ ^ gamma := Real.rpow_le_rpow hc hcc hg.le
  have hb : 0 ≤ c₂ ^ gamma := le_trans ha hab
  have key : (Emax * c₁ ^ gamma) / (EC50 ^ gamma + c₁ ^ gamma)
      ≤ (Emax * c₂ ^ gamma) / (EC50 ^ gamma + c₂ ^ gamma) := by
    rw [div_le_div_iff₀ (by positivity) (by positivity)]
    nlinarith [mul_nonneg (mul_nonneg hE hd.le) (sub_nonneg.mpr hab)]
  refine ⟨?_, ?_, ?_⟩
  · exact min_le_min (max_le_max key le_rfl) le_rfl
  · exact le_min (le_max_right _ 0) (by nlinarith)
  · calc hill_equation c₁ Emax EC50 gamma ≤ Emax * 1.1 := min_le_right _ _
      _ = 1.1 * Emax := mul_comm _ _

/-- C3 witness at the metoprolol HR parameters with concentrations 10 and
100 ng/mL. -/
theorem C3_witness :
    hill_equation 10 25 50 1.5 ≤ hill_equation 100 25 50 1.5 ∧
    0 ≤ hill_equation 10 25 50 1.5 ∧
    hill_equation 10 25 50 1.5 ≤ 1.1 * 25 :=
  C3_hill_monotone_bounded 25 50 1.5 10 100 (by norm_num) (by norm_num)
    (by norm_num) (by norm_num) (by norm_num)

/-! ## Claim C10: unknown drugs get metoprolol PD defaults -/

/-- C10: constructing the PD engine without a calibration dataset never
errors; for a drug name outside the default-parameter table it silently
uses the metoprolol default Hill parameters for all five endpoints — the
same parameters the engine would use for metoprolol itself. -/
theorem C10_unknown_drug_uses_metoprolol_defaults (name : String)
    (h : PD_default_params (strLower name) = none) :
    (mkPDModel name).params = metoprololDefaults ∧
    (mkPDModel name).params = (mkPDModel "metoprolol").params := by
  have hm : (mkPDModel "metoprolol").params = metoprololDefaults := by
    have : strLower "metoprolol" = "metoprolol" := by decide
    simp [mkPDModel, PD_default_params, this]
  constructor
  · simp [mkPDModel, h]
  · rw [hm]; simp [mkPDModel, h]

/-- C10 witness: the unknown drug "fakedrug". -/
theorem C10_witness :
    (mkPDModel "fakedrug").params = metoprololDefaults ∧
    (mkPDModel "fakedrug").params = (mkPDModel "metoprolol").params :=
  C10_unknown_drug_uses_metoprolol_defaults "fakedrug"
    (by simp [PD_default_params, show strLower "fakedrug" = "fakedrug" from by decide])

/-! ## Claim C4: PD safety flags from the final-timestep deltas -/

/-- Closed form of `compute_effects` on a non-empty concentration series. -/
theorem compute_effects_eq (pd : PDModel) (b : PatientBaseline)
    (t conc : List ℝ) (hne : conc ≠ []) :
    compute_effects pd b t conc =
      some { drug_name := pd.drug_name
             time_hours := t
             delta_hr := ((conc.map (fun c => c * 1000.0)).map
               (fun c => hill_equation c pd.params.HR.Emax pd.params.HR.EC50
                 pd.params.HR.gamma)).map (fun x => -x)
             delta_sbp := ((conc.map (fun c => c * 1000.0)).map
               (fun c => hill_equation c pd.params.SBP.Emax pd.params.SBP.EC50
                 pd.params.SBP.gamma)).map (fun x => -x)
             delta_dbp := ((conc.map (fun c => c * 1000.0)).map
               (fun c => hill_equation c pd.params.DBP.Emax pd.params.DBP.EC50
                 pd.params.DBP.gamma)).map (fun x => -x)
             delta_contractility := ((conc.map (fun c => c * 1000.0)).map
               (fun c => hill_equation c pd.params.contractility.Emax
                 pd.params.contractility.EC50 pd.params.contractility.gamma)).map
               (fun x => -x)
             delta_vascular_resistance := ((conc.map (fun c => c * 1000.0)).map
               (fun c => hill_equation c pd.params.vascular_resistance.Emax
                 pd.params.vascular_resistance.EC50
                 pd.params.vascular_resistance.gamma)).map (fun x => -x)
             bradycardia_risk := decide (b.hr_baseline +
               -(hill_equation (conc.getLast hne * 1000.0) pd.params.HR.Emax
                 pd.params.HR.EC50 pd.params.HR.gamma) < 60)
             hypotension_risk := decide (b.sbp_baseline +
               -(hill_equation (conc.getLast hne * 1000.0) pd.params.SBP.Emax
                 pd.params.SBP.EC50 pd.params.SBP.gamma) < 90) } := by
  have hlast : ∀ (f : ℝ → ℝ),
      (((conc.map (fun c => c * 1000.0)).map f).map (fun x => -x)).getLast? =
        some (-(f (conc.getLast hne * 1000.0))) := by
    intro f
    rw [List.getLast?_map, List.getLast?_map, List.getLast?_map,
      List.getLast?_eq_getLast conc hne]
    rfl
  simp only [compute_effects, hlast]

/-- C4: for every baseline and non-empty concentration input,
`compute_effects` sets `bradycardia_risk` exactly when baseline HR plus the
final-timestep `delta_hr` is below 60 and `hypotension_risk` exactly when
baseline SBP plus the final-timestep `delta_sbp` is below 90; in
particular a baseline HR of 75 with final `delta_hr = −20` gives final
HR 55 and `bradycardia_risk = true`. -/
theorem C4_safety_flags (pd : PDModel) (b : PatientBaseline) (t conc : List ℝ)
    (hne : conc ≠ []) :
    let eff := (compute_effects pd b t conc).getD emptyEffects
    (compute_effects pd b t conc).isSome = true ∧
    (eff.bradycardia_risk = true ↔ b.hr_baseline + eff.delta_hr.getLastD 0 < 60) ∧
    (eff.hypotension_risk = true ↔ b.sbp_baseline + eff.delta_sbp.getLastD 0 < 90) ∧
    (b.hr_baseline = 75 → eff.delta_hr.getLastD 0 = -20 →
      b.hr_baseline + eff.delta_hr.getLastD 0 = 55 ∧ eff.bradycardia_risk = true) := by
  intro eff
  have heff : eff = (compute_effects pd b t conc).getD emptyEffects := rfl
  rw [compute_effects_eq pd b t conc hne] at heff
  have hlastD : ∀ (f : ℝ → ℝ),
      ((((conc.map (fun c => c * 1000.0)).map f).map (fun x => -x)).getLastD 0) =
        -(f (conc.getLast hne * 1000.0)) := by
    intro f
    rw [List.getLastD_eq_getLast?, List.getLast?_map, List.getLast?_map,
      List.getLast?_map, List.getLast?_eq_getLast conc hne]
    rfl
  refine ⟨?_, ?_, ?_, ?_⟩
  · rw [compute_effects_eq pd b t conc hne]; rfl
  · rw [heff]
    simp only [Option.getD_some, hlastD]
    exact decide_eq_true_iff
  · rw [heff]
    simp only [Option.getD_some, hlastD]
    exact decide_eq_true_iff
  · intro h75 hlast
    rw [heff] at hlast ⊢
    simp only [Option.getD_some, hlastD] at hlast ⊢
    constructor
    · rw [h75, hlast]; norm_num
    · rw [decide_eq_true_iff]; rw [h75, hlast]; norm_num

/-- C4 witness: metoprolol defaults, the scenario baseline (HR 75,
SBP 120, DBP 80), and a one-sample concentration series. -/
theorem C4_witness :
    let b : PatientBaseline :=
      { patient_id := "demo", age := 50, sex := "M", weight := 70, height := 170,
        hr_baseline := 75, sbp_baseline := 120, dbp_baseline := 80,
        lv_volume := 120, aortic_pressure := 120, contractility := 1,
        vascular_resistance := 18, ejection_fraction := 0.6,
        cardiac_output := 5, arrhythmia_risk := 0.1 }
    let eff := (compute_effects (mkPDModel "metoprolol") b [0] [0.05]).getD emptyEffects
    (compute_effects (mkPDModel "metoprolol") b [0] [0.05]).isSome = true ∧
    (eff.bradycardia_risk = true ↔ 75 + eff.delta_hr.getLastD 0 < 60) ∧
    (eff.hypotension_risk = true ↔ 120 + eff.delta_sbp.getLastD 0 < 90) ∧
    ((75 : ℝ) = 75 → eff.delta_hr.getLastD 0 = -20 →
      (75 : ℝ) + eff.delta_hr.getLastD 0 = 55 ∧ eff.bradycardia_risk = true) :=
  C4_safety_flags (mkPDModel "metoprolol") _ [0] [0.05]
    (List.cons_ne_nil 0.05 [])

/-! ## Claim C7: baseline initializer fallback policy -/

/-- On a mapping whose present values are all numeric, a float field read
yields the present value or, when absent, the default. -/
theorem getFloatField_ok (patient : String → Option PyVal)
    (hnum : ∀ k v, patient k = some v → ∃ x, v = PyVal.num x)
    (key : String) (d : ℝ) :
    getFloatField patient key d = .ok (numGetD patient key d) := by
  unfold getFloatField numGetD
  cases h : patient key with
  | none => rfl
  | some v => obtain ⟨x, rfl⟩ := hnum key v h; rfl

/-- Like `getFloatField_ok` for the integer `age` field. -/
theorem getIntField_ok (patient : String → Option PyVal)
    (hnum : ∀ k v, patient k = some v → ∃ x, v = PyVal.num x)
    (key : String) (d : ℤ) :
    getIntField patient key d = .ok (intGetD patient key d) := by
  unfold getIntField intGetD
  cases h : patient key with
  | none => rfl
  | some v => obtain ⟨x, rfl⟩ := hnum key v h; rfl

/-- Closed form of `_set_physiological_parameters` on all-numeric input. -/
theorem set_physiological_parameters_ok (patient : String → Option PyVal)
    (hnum : ∀ k v, patient k = some v → ∃ x, v = PyVal.num x) :
    set_physiological_parameters patient =
      .ok { patient_id := ((patient "patient_id").map pyStr).getD "unknown"
            age := intGetD patient "age" 50
            sex := ((patient "sex").map pyStr).getD "M"
            weight := numGetD patient "weight" 70.0
            height := numGetD patient "height" 170.0
            hr := numGetD patient "hr" 75.0
            sbp := numGetD patient "sbp" 120.0
            dbp := numGetD patient "dbp" 80.0
            sv := numGetD patient "sv" 70.0
            co := numGetD patient "co" 5.0
            svr := numGetD patient "svr" 18.0
            arrhythmia_risk := numGetD patient "ecg_risk" 0.1 } := by
  unfold set_physiological_parameters
  rw [getIntField_ok patient hnum, getFloatField_ok patient hnum,
    getFloatField_ok patient hnum, getFloatField_ok patient hnum,
    getFloatField_ok patient hnum, getFloatField_ok patient hnum,
    getFloatField_ok patient hnum, getFloatField_ok patient hnum,
    getFloatField_ok patient hnum, getFloatField_ok patient hnum]
  rfl

/-- C7 counterexample: on a mapping whose `weight` entry is present but
not numeric, the Baseline Initializer raises (`float("abc")` is a
`ValueError`) instead of falling back to the default — so the claim as
stated is false. -/
theorem C7_counterexample : (initBaseline badPatient).isOk = false := by
  have hw : badPatient "weight" = some (.str "abc") := by
    simp [badPatient]
  have hage : badPatient "age" = none := by simp [badPatient]
  unfold initBaseline set_physiological_parameters getIntField getFloatField
  rw [hage, hw]
  rfl

/-- C7 amended: on every mapping whose *present* fields are numeric, the
Baseline Initializer succeeds, and each *absent* numeric field falls back
to its documented default (age 50, weight 70, height 170, HR 75, SBP 120,
DBP 80, SV 70, CO 5.0, SVR 18.0, risk 0.1). -/
theorem C7_absent_fields_default (patient : String → Option PyVal)
    (hnum : ∀ k v, patient k = some v → ∃ x, v = PyVal.num x) :
    (initBaseline patient).isOk = true ∧
    (patient "age" = none →
      (exceptGetD (set_physiological_parameters patient) junkPhysio).age = 50) ∧
    (patient "weight" = none →
      (exceptGetD (set_physiological_parameters patient) junkPhysio).weight = 70) ∧
    (patient "height" = none →
      (exceptGetD (set_physiological_parameters patient) junkPhysio).height = 170) ∧
    (patient "hr" = none →
      (exceptGetD (set_physiological_parameters patient) junkPhysio).hr = 75) ∧
    (patient "sbp" = none →
      (exceptGetD (set_physiological_parameters patient) junkPhysio).sbp = 120) ∧
    (patient "dbp" = none →
      (exceptGetD (set_physiological_parameters patient) junkPhysio).dbp = 80) ∧
    (patient "sv" = none →
      (exceptGetD (set_physiological_parameters patient) junkPhysio).sv = 70) ∧
    (patient "co" = none →
      (exceptGetD (set_physiological_parameters patient) junkPhysio).co = 5) ∧
    (patient "svr" = none →
      (exceptGetD (set_physiological_parameters patient) junkPhysio).svr = 18) ∧
    (patient "ecg_risk" = none →
      (exceptGetD (set_physiological_parameters patient) junkPhysio).arrhythmia_risk
        = 0.1) := by
  rw [set_physiological_parameters_ok patient hnum]
  refine ⟨?_, ?_, ?_, ?_, ?_, ?_, ?_, ?_, ?_, ?_, ?_⟩
  · rw [initBaseline, set_physiological_parameters_ok patient hnum]; rfl
  all_goals intro h
  · simp [exceptGetD, intGetD, h]
  all_goals simp [exceptGetD, numGetD, h]
  all_goals norm_num

/-- C7 witness: on the empty mapping all ten numeric fields take their
documented defaults and the initializer succeeds. -/
theorem C7_witness :
    (initBaseline noParams).isOk = true ∧
    (exceptGetD (set_physiological_parameters noParams) junkPhysio).age = 50 ∧
    (exceptGetD (set_physiological_parameters noParams) junkPhysio).weight = 70 ∧
    (exceptGetD (set_physiological_parameters noParams) junkPhysio).height = 170 ∧
    (exceptGetD (set_physiological_parameters noParams) junkPhysio).hr = 75 ∧
    (exceptGetD (set_physiological_parameters noParams) junkPhysio).sbp = 120 ∧
    (exceptGetD (set_physiological_parameters noParams) junkPhysio).dbp = 80 ∧
    (exceptGetD (set_physiological_parameters noParams) junkPhysio).sv = 70 ∧
    (exceptGetD (set_physiological_parameters noParams) junkPhysio).co = 5 ∧
    (exceptGetD (set_physiological_parameters noParams) junkPhysio).svr = 18 ∧
    (exceptGetD (set_physiological_parameters noParams) junkPhysio).arrhythmia_risk
      = 0.1 := by
  have h := C7_absent_fields_default noParams
    (by intro k v hv; exact absurd hv (by simp [noParams]))
  exact ⟨h.1, h.2.1 rfl, h.2.2.1 rfl, h.2.2.2.1 rfl, h.2.2.2.2.1 rfl,
    h.2.2.2.2.2.1 rfl, h.2.2.2.2.2.2.1 rfl, h.2.2.2.2.2.2.2.1 rfl,
    h.2.2.2.2.2.2.2.2.1 rfl, h.2.2.2.2.2.2.2.2.2.1 rfl,
    h.2.2.2.2.2.2.2.2.2.2 rfl⟩

/-! ## Claim C8: stroke-volume division guard -/

/-- Indexing a mapped zip of two equal-length lists. -/
theorem zip_map_getD (f : ℝ × ℝ → ℝ) :
    ∀ (l1 l2 : List ℝ) (i : ℕ), i < l1.length → l1.length = l2.length →
      ((l1.zip l2).map f).getD i 0 = f (l1.getD i 0, l2.getD i 0) := by
  intro l1
  induction l1 with
  | nil => intro l2 i h1 _; exact absurd h1 (by simp)
  | cons x xs ih =>
      intro l2 i h1 h2
      cases l2 with
      | nil => simp at h2
      | cons y ys =>
          cases i with
          | zero => rfl
          | succ n =>
              have hn : n < xs.length := by simpa using Nat.lt_of_succ_lt_succ h1
              have hl : xs.length = ys.length := by simpa using h2
              simpa using ih ys n hn hl

/-- C8: whenever effect-propagation produces a trajectory, its stroke
volume at every timestep equals `CO(t)·1000` divided by the guarded
denominator — `1.0` substituted whenever `HR(t) ≤ 0` — and that
denominator is never zero, so the division never degenerates. -/
theorem C8_stroke_volume_guard (b : PatientBaseline) (e : PhysiologicalEffects)
    (hok : (simulate_with_effects b e).isSome = true) (i : ℕ)
    (hi : i < ((simulate_with_effects b e).getD emptyTrajectory).heart_rate.length) :
    ((simulate_with_effects b e).getD emptyTrajectory).stroke_volume.getD i 0 =
      ((simulate_with_effects b e).getD emptyTrajectory).cardiac_output.getD i 0
        * 1000.0 /
        (if ((simulate_with_effects b e).getD emptyTrajectory).heart_rate.getD i 0 ≤ 0
          then 1.0
          else ((simulate_with_effects b e).getD emptyTrajectory).heart_rate.getD i 0) ∧
    (if ((simulate_with_effects b e).getD emptyTrajectory).heart_rate.getD i 0 ≤ 0
      then (1 : ℝ)
      else ((simulate_with_effects b e).getD emptyTrajectory).heart_rate.getD i 0)
      ≠ 0 := by
  by_cases hcond : e.delta_hr.length = e.delta_sbp.length ∧
      e.delta_hr.length = e.delta_dbp.length ∧
      e.delta_hr.length = e.delta_contractility.length ∧
      e.delta_hr.length = e.delta_vascular_resistance.length ∧
      e.delta_hr.length ≠ 0
  · have hs : (simulate_with_effects b e).getD emptyTrajectory =
        { patient_id := b.patient_id
          drug_applied := e.drug_name
          time_hours := e.time_hours
          heart_rate := hr_series b e
          systolic_bp := sbp_series b e
          diastolic_bp := dbp_series b e
          cardiac_output := co_series b e
          ejection_fraction := ef_series b e
          mean_arterial_pressure := map_series b e
          stroke_volume := stroke_volume_series b e
          hr_percent_change :=
            ((hr_series b e).getLastD 0 - b.hr_baseline) / b.hr_baseline * 100.0
          bp_percent_change :=
            ((sbp_series b e).getLastD 0 - b.sbp_baseline) / b.sbp_baseline * 100.0
          adverse_events :=
            (if e.bradycardia_risk = true ∨ listMin (hr_series b e) < 60 then
              ["Bradycardia risk"] else []) ++
            (if e.hypotension_risk = true ∨ listMin (sbp_series b e) < 90 then
              ["Hypotension risk"] else []) } := by
      unfold simulate_with_effects
      rw [dif_pos hcond]
      rfl
    rw [hs] at hi ⊢
    simp only at hi ⊢
    have hlenco : (co_series b e).length = (hr_series b e).length := by
      simp [co_series, contractility_series, hr_series, hcond.2.2.1.symm]
    have hico : i < (co_series b e).length := by
      rw [hlenco]
      simpa [hr_series] using hi
    constructor
    · exact zip_map_getD _ (co_series b e) (hr_series b e) i hico hlenco
    · by_cases hle : (hr_series b e).getD i 0 ≤ 0
      · rw [if_pos hle]; norm_num
      · rw [if_neg hle]
        exact ne_of_gt (lt_of_not_le hle)
  · exfalso
    unfold simulate_with_effects at hok
    rw [dif_neg hcond] at hok
    exact Bool.false_ne_true hok

/-- C8 witness: the default baseline with a one-timestep all-zero effects
record, at timestep 0. -/
theorem C8_witness :
    ((simulate_with_effects baselineDefault zeroEffects1).getD
        emptyTrajectory).stroke_volume.getD 0 0 =
      ((simulate_with_effects baselineDefault zeroEffects1).getD
          emptyTrajectory).cardiac_output.getD 0 0 * 1000.0 /
        (if ((simulate_with_effects baselineDefault zeroEffects1).getD
            emptyTrajectory).heart_rate.getD 0 0 ≤ 0
          then 1.0
          else ((simulate_with_effects baselineDefault zeroEffects1).getD
            emptyTrajectory).heart_rate.getD 0 0) ∧
    (if ((simulate_with_effects baselineDefault zeroEffects1).getD
        emptyTrajectory).heart_rate.getD 0 0 ≤ 0
      then (1 : ℝ)
      else ((simulate_with_effects baselineDefault zeroEffects1).getD
        emptyTrajectory).heart_rate.getD 0 0) ≠ 0 :=
  C8_stroke_volume_guard baselineDefault zeroEffects1
    (by simp [simulate_with_effects, zeroEffects1])
    0
    (by simp [simulate_with_effects, zeroEffects1, hr_series])

/-! ## Claim C5: null PD effect reproduces the baseline -/

/-- The last element of a non-empty constant list. -/
theorem getLastD_replicate :
    ∀ (n : ℕ) (x d : ℝ), (List.replicate (n + 1) x).getLastD d = x := by
  intro n
  induction n with
  | zero => intro x d; rfl
  | succ m ih =>
      intro x d
      rw [List.replicate_succ, List.getLastD_cons]
      exact ih x x

/-- Closed form of `simulate_with_effects` when the delta series are
aligned and non-empty. -/
theorem simulate_with_effects_eq (b : PatientBaseline) (e : PhysiologicalEffects)
    (hcond : e.delta_hr.length = e.delta_sbp.length ∧
      e.delta_hr.length = e.delta_dbp.length ∧
      e.delta_hr.length = e.delta_contractility.length ∧
      e.delta_hr.length = e.delta_vascular_resistance.length ∧
      e.delta_hr.length ≠ 0) :
    simulate_with_effects b e =
      some { patient_id := b.patient_id
             drug_applied := e.drug_name
             time_hours := e.time_hours
             heart_rate := hr_series b e
             systolic_bp := sbp_series b e
             diastolic_bp := dbp_series b e
             cardiac_output := co_series b e
             ejection_fraction := ef_series b e
             mean_arterial_pressure := map_series b e
             stroke_volume := stroke_volume_series b e
             hr_percent_change :=
               ((hr_series b e).getLastD 0 - b.hr_baseline) / b.hr_baseline * 100.0
             bp_percent_change :=
               ((sbp_series b e).getLastD 0 - b.sbp_baseline) / b.sbp_baseline * 100.0
             adverse_events :=
               (if e.bradycardia_risk = true ∨ listMin (hr_series b e) < 60 then
                 ["Bradycardia risk"] else []) ++
               (if e.hypotension_risk = true ∨ listMin (sbp_series b e) < 90 then
                 ["Hypotension risk"] else []) } := by
  unfold simulate_with_effects
  rw [dif_pos hcond]

/-- C5 counterexample: a `PatientBaseline` whose `contractility` field is
zero makes the cardiac-output series degenerate (`contractility/0`), so
even under all-zero PD deltas the trajectory's cardiac output does not
reproduce the baseline value — the claim quantified over *every*
`PatientBaseline` is false. -/
theorem C5_counterexample :
    ((simulate_with_effects contractilityZeroBaseline zeroEffects1).getD
        emptyTrajectory).cardiac_output ≠
      List.replicate 1 contractilityZeroBaseline.cardiac_output := by
  have hs := simulate_with_effects_eq contractilityZeroBaseline zeroEffects1
    (by simp [zeroEffects1])
  rw [hs]
  simp only [Option.getD_some]
  simp [co_series, contractility_series, zeroEffects1, contractilityZeroBaseline]

/-- C5 amended: for every `PatientBaseline` with non-zero contractility
and every non-empty all-zero PD delta record, effect-propagation
reproduces the baseline exactly: HR, SBP, DBP series and the internal
contractility and vascular-resistance series are constant at their
baseline-record values, cardiac output and ejection fraction equal their
baseline-record values throughout, and both percent-change scalars are 0. -/
theorem C5_null_effect_reproduces_baseline (b : PatientBaseline)
    (e : PhysiologicalEffects) (n : ℕ) (hc : b.contractility ≠ 0) (hn : n ≠ 0)
    (h1 : e.delta_hr = List.replicate n 0)
    (h2 : e.delta_sbp = List.replicate n 0)
    (h3 : e.delta_dbp = List.replicate n 0)
    (h4 : e.delta_contractility = List.replicate n 0)
    (h5 : e.delta_vascular_resistance = List.replicate n 0) :
    (simulate_with_effects b e).isSome = true ∧
    ((simulate_with_effects b e).getD emptyTrajectory).heart_rate =
      List.replicate n b.hr_baseline ∧
    ((simulate_with_effects b e).getD emptyTrajectory).systolic_bp =
      List.replicate n b.sbp_baseline ∧
    ((simulate_with_effects b e).getD emptyTrajectory).diastolic_bp =
      List.replicate n b.dbp_baseline ∧
    contractility_series b e = List.replicate n b.contractility ∧
    vr_series b e = List.replicate n b.vascular_resistance ∧
    ((simulate_with_effects b e).getD emptyTrajectory).cardiac_output =
      List.replicate n b.cardiac_output ∧
    ((simulate_with_effects b e).getD emptyTrajectory).ejection_fraction =
      List.replicate n b.ejection_fraction ∧
    ((simulate_with_effects b e).getD emptyTrajectory).hr_percent_change = 0 ∧
    ((simulate_with_effects b e).getD emptyTrajectory).bp_percent_change = 0 := by
  obtain ⟨m, rfl⟩ := Nat.exists_eq_succ_of_ne_zero hn
  have hcond : e.delta_hr.length = e.delta_sbp.length ∧
      e.delta_hr.length = e.delta_dbp.length ∧
      e.delta_hr.length = e.delta_contractility.length ∧
      e.delta_hr.length = e.delta_vascular_resistance.length ∧
      e.delta_hr.length ≠ 0 := by
    simp [h1, h2, h3, h4, h5]
  have hhr : hr_series b e = List.replicate (m + 1) b.hr_baseline := by
    rw [hr_series, h1, List.map_replicate]
    norm_num
  have hsbp : sbp_series b e = List.replicate (m + 1) b.sbp_baseline := by
    rw [sbp_series, h2, List.map_replicate]
    norm_num
  have hdbp : dbp_series b e = List.replicate (m + 1) b.dbp_baseline := by
    rw [dbp_series, h3, List.map_replicate]
    norm_num
  have hcs : contractility_series b e = List.replicate (m + 1) b.contractility := by
    rw [contractility_series, h4, List.map_replicate]
    norm_num
  have hvr : vr_series b e = List.replicate (m + 1) b.vascular_resistance := by
    rw [vr_series, h5, List.map_replicate]
    norm_num
  have hco : co_series b e = List.replicate (m + 1) b.cardiac_output := by
    rw [co_series, hcs, List.map_replicate, div_self hc]
    norm_num
  have hef : ef_series b e = List.replicate (m + 1) b.ejection_fraction := by
    rw [ef_series, hcs, List.map_replicate, div_self hc]
    norm_num
  rw [simulate_with_effects_eq b e hcond]
  simp only [Option.getD_some, Option.isSome_some]
  refine ⟨trivial, hhr, hsbp, hdbp, hcs, hvr, hco, hef, ?_, ?_⟩
  · rw [hhr, getLastD_replicate]
    simp
  · rw [hsbp, getLastD_replicate]
    simp

/-- C5 witness: the all-defaults baseline (contractility 1) with a
one-timestep all-zero effects record. -/
theorem C5_witness :
    (simulate_with_effects baselineDefault zeroEffects1).isSome = true ∧
    ((simulate_with_effects baselineDefault zeroEffects1).getD
        emptyTrajectory).heart_rate = List.replicate 1 (75 : ℝ) ∧
    ((simulate_with_effects baselineDefault zeroEffects1).getD
        emptyTrajectory).systolic_bp = List.replicate 1 (120 : ℝ) ∧
    ((simulate_with_effects baselineDefault zeroEffects1).getD
        emptyTrajectory).diastolic_bp = List.replicate 1 (80 : ℝ) ∧
    contractility_series baselineDefault zeroEffects1 = List.replicate 1 (1 : ℝ) ∧
    vr_series baselineDefault zeroEffects1 = List.replicate 1 (18 : ℝ) ∧
    ((simulate_with_effects baselineDefault zeroEffects1).getD
        emptyTrajectory).cardiac_output = List.replicate 1 (5 : ℝ) ∧
    ((simulate_with_effects baselineDefault zeroEffects1).getD
        emptyTrajectory).ejection_fraction = List.replicate 1 (0.60 : ℝ) ∧
    ((simulate_with_effects baselineDefault zeroEffects1).getD
        emptyTrajectory).hr_percent_change = 0 ∧
    ((simulate_with_effects baselineDefault zeroEffects1).getD
        emptyTrajectory).bp_percent_change = 0 :=
  C5_null_effect_reproduces_baseline baselineDefault zeroEffects1 1
    (by norm_num [baselineDefault]) one_ne_zero rfl rfl rfl rfl rfl

/-! ## Claim C9: 24-hour-ahead target is nearest-neighbor -/

/-- `foldl min` never exceeds its initial accumulator. -/
theorem foldl_min_le_init : ∀ (l : List ℝ) (a : ℝ), l.foldl min a ≤ a := by
  intro l
  induction l with
  | nil => intro a; exact le_refl a
  | cons x xs ih => intro a; exact le_trans (ih (min a x)) (min_le_left a x)

/-- `foldl min` never exceeds any list element. -/
theorem foldl_min_le_mem :
    ∀ (l : List ℝ) (a x : ℝ), x ∈ l → l.foldl min a ≤ x := by
  intro l
  induction l with
  | nil => intro a x hx; cases hx
  | cons y ys ih =>
      intro a x hx
      rcases List.mem_cons.mp hx with rfl | hx
      · exact le_trans (foldl_min_le_init ys (min a x)) (min_le_right a x)
      · exact ih (min a y) x hx

/-- `listMin` is a lower bound of the list. -/
theorem listMin_le_mem (l : List ℝ) (x : ℝ) (hx : x ∈ l) : listMin l ≤ x := by
  cases l with
  | nil => cases hx
  | cons y ys =>
      rcases List.mem_cons.mp hx with rfl | hx
      · exact foldl_min_le_init ys x
      · exact foldl_min_le_mem ys y x hx

/-- `foldl min` distributes over a `min` in the accumulator. -/
theorem foldl_min_assoc :
    ∀ (l : List ℝ) (x y : ℝ), l.foldl min (min x y) = min x (l.foldl min y) := by
  intro l
  induction l with
  | nil => intro x y; rfl
  | cons z zs ih =>
      intro x y
      show zs.foldl min (min (min x y) z) = min x (zs.foldl min (min y z))
      rw [min_assoc, ih]

/-- Peeling the head off `listMin`. -/
theorem listMin_cons (x y : ℝ) (ys : List ℝ) :
    listMin (x :: y :: ys) = min x (listMin (y :: ys)) := by
  show ys.foldl min (min x y) = min x (ys.foldl min y)
  exact foldl_min_assoc ys x y

/-- `argminIdx` is a valid index of a non-empty list. -/
theorem argminIdx_lt_length : ∀ (l : List ℝ), l ≠ [] → argminIdx l < l.length := by
  intro l
  induction l with
  | nil => intro h; exact absurd rfl h
  | cons x xs ih =>
      intro _
      cases xs with
      | nil => simp [argminIdx]
      | cons y ys =>
          by_cases h : x ≤ listMin (y :: ys)
          · simp [argminIdx, if_pos h]
          · have := ih (by simp)
            simp only [List.length_cons] at this
            simp only [argminIdx, if_neg h, List.length_cons]
            omega

/-- `argminIdx` attains the minimum. -/
theorem getD_argminIdx :
    ∀ (l : List ℝ), l ≠ [] → l.getD (argminIdx l) 0 = listMin l := by
  intro l
  induction l with
  | nil => intro h; exact absurd rfl h
  | cons x xs ih =>
      intro _
      cases xs with
      | nil => simp [argminIdx, listMin]
      | cons y ys =>
          rw [listMin_cons]
          by_cases h : x ≤ listMin (y :: ys)
          · simp [argminIdx, if_pos h, min_eq_left h]
          · have hlt := lt_of_not_le h
            rw [min_eq_right hlt.le]
            simp only [argminIdx, if_neg h, List.getD_cons_succ]
            exact ih (by simp)

/-- On a strictly decreasing list the first minimum is the last element. -/
theorem argminIdx_strict_anti :
    ∀ (l : List ℝ), l.Chain' (· > ·) → argminIdx l = l.length - 1 := by
  intro l
  induction l with
  | nil => intro _; rfl
  | cons x xs ih =>
      intro hchain
      cases xs with
      | nil => simp [argminIdx]
      | cons y ys =>
          have hxy : x > y := (List.chain'_cons.mp hchain).1
          have hrest : (y :: ys).Chain' (· > ·) := (List.chain'_cons.mp hchain).2
          have hmin : listMin (y :: ys) ≤ y := listMin_le_mem _ y (by simp)
          have hnot : ¬ x ≤ listMin (y :: ys) :=
            not_le.mpr (lt_of_le_of_lt hmin hxy)
          have := ih hrest
          simp only [argminIdx, if_neg hnot, List.length_cons, this]
          omega

/-- Indexing a mapped list with a common default. -/
theorem map_getD (l : List ℝ) (g : ℝ → ℝ) (i : ℕ) (h : i < l.length) :
    (l.map g).getD i 0 = g (l.getD i 0) := by
  rw [List.getD_eq_getElem _ 0 (by simpa using h), List.getD_eq_getElem _ 0 h,
    List.getElem_map]

/-- Every sample of a strictly increasing list is at most the last one. -/
theorem getD_le_getD_last (t : List ℝ) (hmono : t.Chain' (· < ·))
    (k : ℕ) (hk : k < t.length) :
    t.getD k 0 ≤ t.getD (t.length - 1) 0 := by
  have hiL : t.length - 1 < t.length := by omega
  rw [List.getD_eq_getElem _ 0 hk, List.getD_eq_getElem _ 0 hiL]
  have hpair := List.chain'_iff_pairwise.mp hmono
  rcases Nat.lt_or_ge k (t.length - 1) with hlt | hge
  · exact (List.pairwise_iff_getElem.mp hpair k (t.length - 1) hk hiL hlt).le
  · have : k = t.length - 1 := by omega
    subst this
    exact le_refl _

/-- C9: for a strictly increasing time axis, the 24-hour-ahead HR target
at every timestep `i` is the heart-rate sample at the argmin of the
absolute time differences to `tᵢ + 24`; that index attains the minimal
absolute difference against every index `j`; and at the last timestep —
where `tᵢ + 24` exceeds the time axis — the target resolves to the last
available sample instead of failing or extrapolating. -/
theorem C9_target_24h_nearest (t hr : List ℝ) (hmono : t.Chain' (· < ·))
    (i j : ℕ) (hi : i < t.length) (hj : j < t.length) :
    (target_hr_next_24h t hr).getD i 0 =
      hr.getD (argminIdx (t.map (fun tj => |tj - (t.getD i 0 + 24)|))) 0 ∧
    |t.getD (argminIdx (t.map (fun tj => |tj - (t.getD i 0 + 24)|))) 0 -
        (t.getD i 0 + 24)| ≤ |t.getD j 0 - (t.getD i 0 + 24)| ∧
    (target_hr_next_24h t hr).getD (t.length - 1) 0 =
      hr.getD (t.length - 1) 0 := by
  have hne : t ≠ [] := List.ne_nil_of_length_pos (by omega)
  have hdlen : ∀ (x : ℝ), (t.map (fun tj => |tj - x|)).length = t.length := by
    intro x
    exact List.length_map t _
  have hdne : ∀ (x : ℝ), t.map (fun tj => |tj - x|) ≠ [] := by
    intro x
    exact List.ne_nil_of_length_pos (by rw [hdlen]; omega)
  have hargmin_lt : ∀ (x : ℝ),
      argminIdx (t.map (fun tj => |tj - x|)) < t.length := by
    intro x
    have := argminIdx_lt_length _ (hdne x)
    rwa [hdlen] at this
  refine ⟨map_getD t _ i hi, ?_, ?_⟩
  · -- the chosen index attains the minimal absolute time difference
    set x := t.getD i 0 + 24 with hx
    set dists := t.map (fun tj => |tj - x|) with hd
    have h1 : dists.getD (argminIdx dists) 0 = listMin dists :=
      getD_argminIdx dists (hdne x)
    have h2 : dists.getD (argminIdx dists) 0 =
        |t.getD (argminIdx dists) 0 - x| := map_getD t _ _ (hargmin_lt x)
    have h3 : dists.getD j 0 = |t.getD j 0 - x| := map_getD t _ j hj
    have h4 : listMin dists ≤ dists.getD j 0 := by
      apply listMin_le_mem
      rw [List.getD_eq_getElem _ 0 (by rw [hdlen]; omega)]
      exact List.getElem_mem _
    calc |t.getD (argminIdx dists) 0 - x| = listMin dists := by rw [← h2, h1]
      _ ≤ dists.getD j 0 := h4
      _ = |t.getD j 0 - x| := h3
  · -- at the last timestep the argmin is the last index
    have hiL : t.length - 1 < t.length := by omega
    have hlast_lt : ∀ k, k < t.length →
        t.getD k 0 < t.getD (t.length - 1) 0 + 24 := by
      intro k hk
      have := getD_le_getD_last t hmono k hk
      linarith
    have hpair :
        (t.map (fun tj => |tj - (t.getD (t.length - 1) 0 + 24)|)).Pairwise
          (· > ·) := by
      rw [List.pairwise_iff_getElem]
      intro a b ha hb hab
      have ha' : a < t.length := by simpa using ha
      have hb' : b < t.length := by simpa using hb
      have hab' : t[a] < t[b] :=
        List.pairwise_iff_getElem.mp (List.chain'_iff_pairwise.mp hmono)
          a b ha' hb' hab
      have hax : t[a] < t.getD (t.length - 1) 0 + 24 := by
        have := hlast_lt a ha'
        rwa [List.getD_eq_getElem _ 0 ha'] at this
      have hbx : t[b] < t.getD (t.length - 1) 0 + 24 := by
        have := hlast_lt b hb'
        rwa [List.getD_eq_getElem _ 0 hb'] at this
      simp only [List.getElem_map]
      rw [abs_of_neg (by linarith), abs_of_neg (by linarith)]
      linarith
    have hargmin :
        argminIdx (t.map (fun tj => |tj - (t.getD (t.length - 1) 0 + 24)|)) =
          t.length - 1 := by
      rw [argminIdx_strict_anti _ (List.chain'_iff_pairwise.mpr hpair),
        List.length_map]
    calc (target_hr_next_24h t hr).getD (t.length - 1) 0
        = hr.getD
            (argminIdx (t.map
              (fun tj => |tj - (t.getD (t.length - 1) 0 + 24)|))) 0 :=
          map_getD t _ (t.length - 1) hiL
      _ = hr.getD (t.length - 1) 0 := by rw [hargmin]

/-- C9 witness: time axis `[0, 12, 24]`, heart rates `[70, 65, 60]`,
timesteps `i = 0`, `j = 1`. -/
theorem C9_witness :
    (target_hr_next_24h [0, 12, 24] [70, 65, 60]).getD 0 0 =
      [(70 : ℝ), 65, 60].getD
        (argminIdx ([0, 12, 24].map
          (fun tj => |tj - ([(0 : ℝ), 12, 24].getD 0 0 + 24)|))) 0 ∧
    |[(0 : ℝ), 12, 24].getD
        (argminIdx ([0, 12, 24].map
          (fun tj => |tj - ([(0 : ℝ), 12, 24].getD 0 0 + 24)|))) 0 -
        ([(0 : ℝ), 12, 24].getD 0 0 + 24)| ≤
      |[(0 : ℝ), 12, 24].getD 1 0 - ([(0 : ℝ), 12, 24].getD 0 0 + 24)| ∧
    (target_hr_next_24h [0, 12, 24] [70, 65, 60]).getD
        (([(0 : ℝ), 12, 24] : List ℝ).length - 1) 0 =
      [(70 : ℝ), 65, 60].getD (([(0 : ℝ), 12, 24] : List ℝ).length - 1) 0 :=
  C9_target_24h_nearest [0, 12, 24] [70, 65, 60]
    (by simp [List.chain'_cons]; norm_num) 0 1 (by simp) (by simp)

/-! ## Claim C6: steady-state accumulation and fluctuation -/

/-- `foldl max` dominates its initial accumulator. -/
theorem init_le_foldl_max : ∀ (l : List ℝ) (a : ℝ), a ≤ l.foldl max a := by
  intro l
  induction l with
  | nil => intro a; exact le_refl a
  | cons x xs ih => intro a; exact le_trans (le_max_left a x) (ih (max a x))

/-- `foldl max` dominates every list element. -/
theorem mem_le_foldl_max :
    ∀ (l : List ℝ) (a x : ℝ), x ∈ l → x ≤ l.foldl max a := by
  intro l
  induction l with
  | nil => intro a x hx; cases hx
  | cons y ys ih =>
      intro a x hx
      rcases List.mem_cons.mp hx with rfl | hx
      · exact le_trans (le_max_right a x) (init_le_foldl_max ys (max a x))
      · exact ih (max a y) x hx

/-- `listMax` is an upper bound of the list. -/
theorem mem_le_listMax (l : List ℝ) (x : ℝ) (hx : x ∈ l) : x ≤ listMax l := by
  cases l with
  | nil => cases hx
  | cons y ys =>
      rcases List.mem_cons.mp hx with rfl | hx
      · exact init_le_foldl_max ys x
      · exact mem_le_foldl_max ys y x hx

/-- Rewriting one steady-state term over a positive denominator:
`e^(−k·t)/(1 − e^(−k·τ)) = 1/(e^(k·t) − e^(k·(t−τ)))`. -/
theorem exp_div_one_sub_exp_eq (k tau tt : ℝ) (hk : 0 < k) (htau : 0 < tau) :
    Real.exp (-k * tt) / (1 - Real.exp (-k * tau)) =
      1 / (Real.exp (k * tt) - Real.exp (k * (tt - tau))) := by
  have hlt : k * (tt - tau) < k * tt := by nlinarith
  have hg : 0 < Real.exp (k * tt) - Real.exp (k * (tt - tau)) :=
    sub_pos.mpr (Real.exp_lt_exp.mpr hlt)
  have hE : Real.exp (-k * tau) < 1 := Real.exp_lt_one_iff.mpr (by nlinarith)
  have hden : 0 < 1 - Real.exp (-k * tau) := by linarith
  rw [div_eq_div_iff (ne_of_gt hden) (ne_of_gt hg)]
  have h1 : -k * tt + k * tt = 0 := by ring
  have h2 : -k * tt + k * (tt - tau) = -k * tau := by ring
  rw [mul_sub, ← Real.exp_add, ← Real.exp_add, h1, h2, Real.exp_zero, one_mul]

/-- The steady-state Bateman profile is strictly positive on the whole
dosing interval `[0, τ]` for registry-style parameters
(`0 < ke < ka`, positive dose, bioavailability and volume). -/
theorem C_ss_pos (pk : PKModel) (hke : 0 < pk.ke) (hka : pk.ke < pk.ka)
    (htau : 0 < pk.tau) (hF : 0 < pk.F) (hD : 0 < pk.dose) (hVd : 0 < pk.Vd)
    (tt : ℝ) (h0 : 0 ≤ tt) (h1 : tt ≤ pk.tau) : 0 < C_ss pk tt := by
  have hka0 : 0 < pk.ka := lt_trans hke hka
  have hK : 0 < (pk.F * pk.dose * pk.ka * 1000) / (pk.Vd * (pk.ka - pk.ke)) :=
    div_pos (by positivity) (mul_pos hVd (sub_pos.mpr hka))
  rw [C_ss, exp_div_one_sub_exp_eq pk.ke pk.tau tt hke htau,
    exp_div_one_sub_exp_eq pk.ka pk.tau tt hka0 htau]
  apply mul_pos hK
  have hgke : 0 < Real.exp (pk.ke * tt) - Real.exp (pk.ke * (tt - pk.tau)) :=
    sub_pos.mpr (Real.exp_lt_exp.mpr (by nlinarith))
  have hstrict : Real.exp (pk.ke * tt) - Real.exp (pk.ke * (tt - pk.tau)) <
      Real.exp (pk.ka * tt) - Real.exp (pk.ka * (tt - pk.tau)) := by
    rcases lt_or_eq_of_le h0 with htt | htt
    · have e1 : Real.exp (pk.ke * tt) < Real.exp (pk.ka * tt) :=
        Real.exp_lt_exp.mpr (by nlinarith)
      have e2 : Real.exp (pk.ka * (tt - pk.tau)) ≤
          Real.exp (pk.ke * (tt - pk.tau)) :=
        Real.exp_le_exp.mpr (by nlinarith)
      linarith
    · have e1 : Real.exp (pk.ke * tt) ≤ Real.exp (pk.ka * tt) :=
        Real.exp_le_exp.mpr (by nlinarith)
      have e2 : Real.exp (pk.ka * (tt - pk.tau)) <
          Real.exp (pk.ke * (tt - pk.tau)) :=
        Real.exp_lt_exp.mpr (by nlinarith)
      linarith
  exact sub_pos.mpr (one_div_lt_one_div_of_lt hgke hstrict)

/-- Each `linspace(0, τ, 500)` sample time lies in `[0, τ]`. -/
theorem t_interval_mem (pk : PKModel) (htau : 0 < pk.tau) (i : ℕ)
    (hi : i ≤ 499) : 0 ≤ t_interval pk i ∧ t_interval pk i ≤ pk.tau := by
  constructor
  · exact div_nonneg (mul_nonneg (Nat.cast_nonneg i) htau.le) (by norm_num)
  · rw [t_interval, div_le_iff₀ (by norm_num)]
    have : (i : ℝ) ≤ 499 := by exact_mod_cast hi
    nlinarith

/-- The trapezoidal steady-state AUC is strictly positive. -/
theorem AUC_ss_pos (pk : PKModel) (hke : 0 < pk.ke) (hka : pk.ke < pk.ka)
    (htau : 0 < pk.tau) (hF : 0 < pk.F) (hD : 0 < pk.dose) (hVd : 0 < pk.Vd) :
    0 < AUC_ss pk := by
  apply Finset.sum_pos
  · intro i hi
    have hi' : i < 499 := Finset.mem_range.mp hi
    obtain ⟨h0i, h1i⟩ := t_interval_mem pk htau i (by omega)
    obtain ⟨h0s, h1s⟩ := t_interval_mem pk htau (i + 1) (by omega)
    have hC1 := C_ss_pos pk hke hka htau hF hD hVd _ h0i h1i
    have hC2 := C_ss_pos pk hke hka htau hF hD hVd _ h0s h1s
    have hdt : t_interval pk (i + 1) - t_interval pk i = pk.tau / 499 := by
      rw [t_interval, t_interval]
      push_cast
      ring
    rw [hdt]
    exact mul_pos (div_pos (add_pos hC1 hC2) (by norm_num)) (by positivity)
  · exact ⟨0, Finset.mem_range.mpr (by norm_num)⟩

/-- The last steady-state sample. -/
theorem Cmin_ss_eq (pk : PKModel) :
    Cmin_ss pk = C_ss pk (t_interval pk 499) := by
  rw [Cmin_ss, List.getLastD_eq_getLast?, C_ss_samples, List.range_succ,
    List.map_append]
  simp [List.getLast?_concat]

/-- C6: for the PK engine's steady-state outputs under a registry-style
regimen (`0 < ke < ka`, `τ > 0`, positive dose, bioavailability and
volume), the accumulation factor is `1/(1 − e^(−ke·τ))` and is at least 1,
and the fluctuation is `(Cmax_ss − Cmin_ss)/Cavg_ss × 100` and is
non-negative, `Cmax_ss` being the maximum and `Cmin_ss` the last sample of
the one-interval steady-state profile. -/
theorem C6_accumulation_fluctuation (pk : PKModel) (hke : 0 < pk.ke)
    (hka : pk.ke < pk.ka) (htau : 0 < pk.tau) (hF : 0 < pk.F)
    (hD : 0 < pk.dose) (hVd : 0 < pk.Vd) :
    accumulation_factor pk = 1 / (1 - Real.exp (-pk.ke * pk.tau)) ∧
    1 ≤ accumulation_factor pk ∧
    fluctuation_percent pk = (Cmax_ss pk - Cmin_ss pk) / Cavg_ss pk * 100 ∧
    Cmin_ss pk ≤ Cmax_ss pk ∧
    0 ≤ fluctuation_percent pk := by
  have hE1 : Real.exp (-pk.ke * pk.tau) < 1 :=
    Real.exp_lt_one_iff.mpr (by nlinarith)
  have hE0 : 0 < Real.exp (-pk.ke * pk.tau) := Real.exp_pos _
  have hR : 1 ≤ accumulation_factor pk := by
    rw [accumulation_factor, le_div_iff₀ (by linarith)]
    linarith
  have hmem : Cmin_ss pk ∈ C_ss_samples pk := by
    rw [Cmin_ss_eq, C_ss_samples, List.range_succ, List.map_append]
    exact List.mem_append_right _ (by simp)
  have hminmax : Cmin_ss pk ≤ Cmax_ss pk := mem_le_listMax _ _ hmem
  have hcavg : 0 < Cavg_ss pk :=
    div_pos (AUC_ss_pos pk hke hka htau hF hD hVd) htau
  refine ⟨rfl, hR, rfl, hminmax, ?_⟩
  exact mul_nonneg
    (div_nonneg (sub_nonneg.mpr hminmax) hcavg.le) (by norm_num)

/-- C6 witness: metoprolol 100 mg BID in an 82 kg patient. -/
theorem C6_witness :
    accumulation_factor pkMetoprolol =
      1 / (1 - Real.exp (-pkMetoprolol.ke * pkMetoprolol.tau)) ∧
    1 ≤ accumulation_factor pkMetoprolol ∧
    fluctuation_percent pkMetoprolol =
      (Cmax_ss pkMetoprolol - Cmin_ss pkMetoprolol) / Cavg_ss pkMetoprolol
        * 100 ∧
    Cmin_ss pkMetoprolol ≤ Cmax_ss pkMetoprolol ∧
    0 ≤ fluctuation_percent pkMetoprolol :=
  C6_accumulation_fluctuation pkMetoprolol (by norm_num [pkMetoprolol])
    (by norm_num [pkMetoprolol]) (by norm_num [pkMetoprolol])
    (by norm_num [pkMetoprolol]) (by norm_num [pkMetoprolol])
    (by norm_num [pkMetoprolol])

end WoP
